import Mathlib

/-!
Verification of the users-to-excel program (src/main.py) against its
natural-language specification.

The program has two components:
* `fetch_user_data_to_json` (the Cache Loader): if `data/users.json` is absent,
  performs one HTTP GET and stores `json.dump(response.json())` there;
* `write_user_data_to_excel` (the Export Transformer): reads `data/users.json`
  with `json.load`, sorts the records by (last name token, first name token),
  and writes a spreadsheet `employees_<YYYYMMDDHHMMSS>.xlsx`.

The embedding models the filesystem as an association list of paths, the HTTP
client as a value describing the single response, the `json` library as an
executable parser/serializer for the JSON fragment actually exchanged
(strings without escape sequences, non-negative integers, arrays, objects),
Python's stable `sorted` as a stable insertion sort, Python's code-point
string comparison as an executable comparison on character lists, and
`datetime.now().strftime("%Y%m%d%H%M%S")` as zero-padded decimal rendering
of a wall-clock structure.
-/

open List

/-! ## Generic helpers: Python string comparison, lexicographic facts -/

/-- Executable model of Python's `<` on strings, on the underlying character
lists: compare code points position by position. -/
def charListLt : List Char → List Char → Bool
  | [], [] => false
  | [], _ :: _ => true
  | _ :: _, [] => false
  | a :: as, b :: bs =>
    if a < b then true
    else if b < a then false
    else charListLt as bs

/-- Executable model of Python's `<` on strings (code-point lexicographic). -/
def pyStrLt (s t : String) : Bool := charListLt s.data t.data

theorem char_eq_of_not_lt {a b : Char} (h1 : ¬ a < b) (h2 : ¬ b < a) : a = b :=
  le_antisymm (not_lt.mp h2) (not_lt.mp h1)

theorem charListLt_iff_lex (as bs : List Char) :
    charListLt as bs = true ↔ List.Lex (· < ·) as bs := by
  induction as generalizing bs with
  | nil =>
    cases bs with
    | nil => simp [charListLt]
    | cons b bs => simp [charListLt]; exact List.Lex.nil
  | cons a as ih =>
    cases bs with
    | nil =>
      simp only [charListLt, Bool.false_eq_true, false_iff]
      intro h; cases h
    | cons b bs =>
      simp only [charListLt]
      split
      · rename_i h
        simp only [true_iff]
        exact List.Lex.rel h
      · split
        · rename_i h1 h2
          simp only [Bool.false_eq_true, false_iff]
          intro hl
          cases hl with
          | rel h => exact h1 h
          | cons h => exact absurd h2 (lt_irrefl a)
        · rename_i h1 h2
          have hab : a = b := char_eq_of_not_lt h1 h2
          subst hab
          rw [ih]
          constructor
          · exact fun h => List.Lex.cons h
          · intro h
            cases h with
            | rel h => exact absurd h (lt_irrefl a)
            | cons h => exact h

/-- Model of Python string `<` agrees with the standard code-point
lexicographic (linear) order on strings. -/
theorem pyStrLt_iff_lt (s t : String) : pyStrLt s t = true ↔ s < t := by
  rw [pyStrLt, charListLt_iff_lex, String.lt_iff_toList_lt]
  exact Iff.rfl

theorem lex_append_of_lex {α : Type} {r : α → α → Prop} :
    ∀ {a b : List α}, List.Lex r a b → a.length = b.length →
      ∀ (c d : List α), List.Lex r (a ++ c) (b ++ d) := by
  intro a b hlex
  induction hlex with
  | nil => intro hlen; simp at hlen
  | rel h => intro _ c d; exact List.Lex.rel h
  | cons h ih =>
    intro hlen c d
    exact List.Lex.cons (ih (by simpa using hlen) c d)

/-! ## Zero-padded decimal digits (for the timestamp model) -/

/-- Decimal digits of `n`, zero-padded to exactly `w` digits, most
significant first (the last `w` digits when `n` has more). -/
def natDigits : Nat → Nat → List Nat
  | 0, _ => []
  | w+1, n => natDigits w (n / 10) ++ [n % 10]

theorem natDigits_length (w n : Nat) : (natDigits w n).length = w := by
  induction w generalizing n with
  | zero => rfl
  | succ w ih => simp [natDigits, ih]

theorem natDigits_lt (w : Nat) : ∀ {n m : Nat}, n < m → m < 10 ^ w →
    List.Lex (· < ·) (natDigits w n) (natDigits w m) := by
  induction w with
  | zero => intro n m h1 h2; omega
  | succ w ih =>
    intro n m h1 h2
    simp only [natDigits]
    rcases Nat.lt_or_ge (n / 10) (m / 10) with h | h
    · have hm : m / 10 < 10 ^ w := by
        have : m < 10 ^ w * 10 := by rw [pow_succ] at h2; omega
        omega
      exact lex_append_of_lex (ih h hm) (by simp [natDigits_length]) _ _
    · have heq : n / 10 = m / 10 := by omega
      have hmod : n % 10 < m % 10 := by omega
      rw [heq]
      exact List.Lex.append_left _ (List.Lex.rel hmod) _

theorem natDigits_all_lt (w n : Nat) : ∀ d ∈ natDigits w n, d < 10 := by
  induction w generalizing n with
  | zero => simp [natDigits]
  | succ w ih =>
    intro d hd
    simp only [natDigits, List.mem_append, List.mem_singleton] at hd
    rcases hd with h | h
    · exact ih _ _ h
    · omega

/-- Rendering of a single decimal digit as a character. -/
def digitChar10 : Nat → Char
  | 0 => '0' | 1 => '1' | 2 => '2' | 3 => '3' | 4 => '4'
  | 5 => '5' | 6 => '6' | 7 => '7' | 8 => '8' | _ => '9'

theorem digitChar10_mono_fin : ∀ d e : Fin 10, d.val < e.val →
    digitChar10 d.val < digitChar10 e.val := by decide

theorem digitChar10_digit_fin : ∀ d : Fin 10, (digitChar10 d.val).isDigit = true := by decide

theorem lex_map_digitChar10 : ∀ {ds es : List Nat},
    List.Lex (· < ·) ds es →
    (∀ d ∈ ds, d < 10) → (∀ e ∈ es, e < 10) →
    List.Lex (· < ·) (ds.map digitChar10) (es.map digitChar10) := by
  intro ds es hl
  induction hl with
  | nil =>
    intro _ _
    exact List.Lex.nil
  | @rel a l₁ b l₂ h =>
    intro hds hes
    exact List.Lex.rel (digitChar10_mono_fin ⟨a, hds a (by simp)⟩ ⟨b, hes b (by simp)⟩ h)
  | @cons a l₁ l₂ h ih =>
    intro hds hes
    exact List.Lex.cons (ih (fun d hd => hds d (by simp [hd])) (fun e he => hes e (by simp [he])))

/-! ## Stable sort (model of Python's `sorted`) -/

/-- Stable insertion of `x` into `l`: `x` is placed before the first element
`y` with `le x y`, so it lands after every earlier element of equal rank. -/
def insertS (le : α → α → Bool) (x : α) : List α → List α
  | [] => [x]
  | y :: ys => if le x y then x :: y :: ys else y :: insertS le x ys

/-- Stable ascending sort, the model of Python's (stable) `sorted`. -/
def sortS (le : α → α → Bool) : List α → List α
  | [] => []
  | x :: xs => insertS le x (sortS le xs)

theorem insertS_perm (le : α → α → Bool) (x : α) (l : List α) :
    insertS le x l ~ x :: l := by
  induction l with
  | nil => rfl
  | cons y ys ih =>
    simp only [insertS]
    split
    · rfl
    · exact (ih.cons y).trans (List.Perm.swap x y ys)

theorem sortS_perm (le : α → α → Bool) (l : List α) : sortS le l ~ l := by
  induction l with
  | nil => rfl
  | cons x xs ih => exact (insertS_perm le x (sortS le xs)).trans (ih.cons x)

theorem mem_insertS (le : α → α → Bool) (x a : α) (l : List α) :
    a ∈ insertS le x l ↔ a = x ∨ a ∈ l := by
  rw [(insertS_perm le x l).mem_iff]
  simp

theorem pairwise_insertS (le : α → α → Bool)
    (htrans : ∀ a b c, le a b = true → le b c = true → le a c = true)
    (htotal : ∀ a b, le a b || le b a)
    (x : α) (l : List α) (h : l.Pairwise (fun a b => le a b = true)) :
    (insertS le x l).Pairwise (fun a b => le a b = true) := by
  induction l with
  | nil => simp [insertS]
  | cons y ys ih =>
    simp only [insertS]
    split
    · rename_i hxy
      refine List.Pairwise.cons ?_ h
      intro b hb
      rcases List.mem_cons.mp hb with rfl | hb
      · exact hxy
      · exact htrans x y b hxy ((List.pairwise_cons.mp h).1 b hb)
    · rename_i hxy
      have hyx : le y x = true := by
        have := htotal x y
        simp [hxy] at this
        exact this
      refine List.Pairwise.cons ?_ (ih (List.pairwise_cons.mp h).2)
      intro b hb
      rcases (mem_insertS le x b ys).mp hb with rfl | hb
      · exact hyx
      · exact (List.pairwise_cons.mp h).1 b hb

theorem pairwise_sortS (le : α → α → Bool)
    (htrans : ∀ a b c, le a b = true → le b c = true → le a c = true)
    (htotal : ∀ a b, le a b || le b a) (l : List α) :
    (sortS le l).Pairwise (fun a b => le a b = true) := by
  induction l with
  | nil => simp [sortS]
  | cons x xs ih => exact pairwise_insertS le htrans htotal x (sortS le xs) ih

theorem sublist_insertS (le : α → α → Bool) (x : α) (l : List α) :
    l <+ insertS le x l := by
  induction l with
  | nil => simp [insertS]
  | cons y ys ih =>
    simp only [insertS]
    split
    · exact List.sublist_cons_self x (y :: ys)
    · exact List.Sublist.cons₂ y ih

theorem pair_sublist_insertS (le : α → α → Bool) {a b : α}
    (hab : le a b = true) (m : List α) (hb : b ∈ m) :
    [a, b] <+ insertS le a m := by
  induction m with
  | nil => cases hb
  | cons y ys ih =>
    simp only [insertS]
    split
    · exact List.Sublist.cons₂ a (List.singleton_sublist.mpr hb)
    · rename_i hay
      rcases List.mem_cons.mp hb with rfl | hmem
      · exact absurd hab hay
      · exact List.Sublist.cons y (ih hmem)

/-- Stability of the sort model: a pair that appears in order in the input
and is `le`-related (in particular, any tie) appears in the same order in
the output. -/
theorem pair_sublist_sortS (le : α → α → Bool) {a b : α}
    (hab : le a b = true) {l : List α} (h : [a, b] <+ l) :
    [a, b] <+ sortS le l := by
  induction l with
  | nil => cases h
  | cons x xs ih =>
    cases h with
    | cons _ h' =>
      exact (ih h').trans (sublist_insertS le x (sortS le xs))
    | cons₂ _ h' =>
      have hb : b ∈ sortS le xs := by
        rw [(sortS_perm le xs).mem_iff]
        exact List.singleton_sublist.mp h'
      exact pair_sublist_insertS le hab (sortS le xs) hb

/-! ## JSON values (model of the `json` library on the exchanged fragment) -/

/-- JSON values, restricted to the fragment the program exchanges: strings
without escape sequences, non-negative integers, arrays and objects. -/
inductive Json where
  | str (s : String)
  | num (n : Nat)
  | arr (elems : List Json)
  | obj (members : List (String × Json))

mutual
/-- Serialization in the style of Python's `json.dumps` with default
separators: items joined by a comma and a space, keys followed by a colon
and a space, no extra whitespace. -/
def dump : Json → String
  | .str s => "\"" ++ s ++ "\""
  | .num n => toString n
  | .arr xs => "[" ++ dumpItems xs ++ "]"
  | .obj kvs => "\x7b" ++ dumpMembers kvs ++ "\x7d"

def dumpItems : List Json → String
  | [] => ""
  | [x] => dump x
  | x :: y :: xs => dump x ++ ", " ++ dumpItems (y :: xs)

def dumpMembers : List (String × Json) → String
  | [] => ""
  | [(k, v)] => "\"" ++ k ++ "\": " ++ dump v
  | (k, v) :: m :: xs => "\"" ++ k ++ "\": " ++ dump v ++ ", " ++ dumpMembers (m :: xs)
end

/-- Whitespace accepted between JSON tokens. -/
def wsChar (c : Char) : Bool := c == ' ' || c == '\t' || c == '\n' || c == '\r'

def skipWs : List Char → List Char
  | [] => []
  | c :: cs => if wsChar c then skipWs cs else c :: cs

/-- Characters accepted inside a JSON string literal by this fragment:
printable ASCII other than the quote and the backslash. -/
def jsonSafeChar (c : Char) : Bool :=
  c != '"' && c != '\\' && 0x20 ≤ c.toNat && c.toNat ≤ 0x7e

/-- Parse the body of a string literal after the opening quote, up to and
including the closing quote. -/
def parseStrBody : List Char → Option (String × List Char)
  | [] => none
  | c :: cs =>
    if c == '"' then some ("", cs)
    else if jsonSafeChar c then
      match parseStrBody cs with
      | some (s, r) => some (String.mk (c :: s.data), r)
      | none => none
    else none

def digitsVal (ds : List Char) : Nat :=
  ds.foldl (fun a c => a * 10 + (c.toNat - 48)) 0

/-- States of the recursive-descent JSON reader: expecting a value, or
continuing an array or an object after a first element. -/
inductive PMode where
  | val
  | arrTail (acc : List Json)
  | objTail (acc : List (String × Json))

/-- Fuel-indexed recursive-descent parser for the JSON fragment; the fuel
only bounds the recursion depth and `jsonParse` supplies enough of it. -/
def parseF : Nat → PMode → List Char → Option (Json × List Char)
  | 0, _, _ => none
  | fuel+1, .val, cs =>
    match skipWs cs with
    | [] => none
    | c :: rest =>
      if c == '"' then
        match parseStrBody rest with
        | some (s, r) => some (.str s, r)
        | none => none
      else if c == '[' then
        match skipWs rest with
        | ']' :: r2 => some (.arr [], r2)
        | r2 =>
          match parseF fuel .val r2 with
          | some (v, r3) => parseF fuel (.arrTail [v]) r3
          | none => none
      else if c == '\x7b' then
        match skipWs rest with
        | '\x7d' :: r2 => some (.obj [], r2)
        | '"' :: r2 =>
          match parseStrBody r2 with
          | some (k, r3) =>
            match skipWs r3 with
            | ':' :: r4 =>
              match parseF fuel .val r4 with
              | some (v, r5) => parseF fuel (.objTail [(k, v)]) r5
              | none => none
            | _ => none
          | none => none
        | _ => none
      else if c.isDigit then
        some (.num (digitsVal ((c :: rest).takeWhile Char.isDigit)),
          (c :: rest).dropWhile Char.isDigit)
      else none
  | fuel+1, .arrTail acc, cs =>
    match skipWs cs with
    | ']' :: r => some (.arr acc.reverse, r)
    | ',' :: r =>
      match parseF fuel .val r with
      | some (v, r2) => parseF fuel (.arrTail (v :: acc)) r2
      | none => none
    | _ => none
  | fuel+1, .objTail acc, cs =>
    match skipWs cs with
    | '\x7d' :: r => some (.obj acc.reverse, r)
    | ',' :: r =>
      match skipWs r with
      | '"' :: r2 =>
        match parseStrBody r2 with
        | some (k, r3) =>
          match skipWs r3 with
          | ':' :: r4 =>
            match parseF fuel .val r4 with
            | some (v, r5) => parseF fuel (.objTail ((k, v) :: acc)) r5
            | none => none
          | _ => none
        | none => none
      | _ => none
    | _ => none

/-- Model of `json.loads` on the exchanged fragment: `none` when the text is
not a JSON document of the fragment. -/
def jsonParse (s : String) : Option Json :=
  match parseF (s.length + 1) .val s.data with
  | some (v, rest) => if skipWs rest = [] then some v else none
  | none => none

/-! ## Filesystem and HTTP collaborator models -/

/-- Content of a file: UTF-8 text (the JSON snapshot) or a saved spreadsheet,
modelled abstractly as its rows of cell values. -/
inductive FileContent where
  | text (s : String)
  | sheet (rows : List (List Json))

/-- Filesystem model: an association list from paths to contents; a write
prepends and a read returns the most recent binding. -/
structure FS where
  files : List (String × FileContent)

def FS.read (fs : FS) (p : String) : Option FileContent :=
  (fs.files.find? (fun kv => kv.1 == p)).map (fun kv => kv.2)

def FS.write (fs : FS) (p : String) (c : FileContent) : FS :=
  ⟨(p, c) :: fs.files⟩

/-- Path constants of src/main.py, with the module directory as root. -/
def DATA_FOLDER : String := "data"

def USERS_JSON_FILE : String := DATA_FOLDER ++ "/users.json"

def API_URL : String := "https://jsonplaceholder.typicode.com/users"

/-- Behaviour of the single `requests.get(API_URL, timeout=60)` call: either a
transport-level failure (connection error, timeout, ...) carrying its message,
or a response with a status code and a body. -/
inductive FetchOutcome where
  | transportError (e : String)
  | response (status : Nat) (body : String)

/-- Model of `response.raise_for_status()`: an error message for a 4xx or 5xx
status, nothing otherwise. -/
def raiseForStatusError (status : Nat) : Option String :=
  if 400 ≤ status ∧ status < 600 then some (s!"HTTP error {status}") else none

/-- Failure cause of the whole guarded request block, when there is one. -/
def failureOf (net : FetchOutcome) : Option String :=
  match net with
  | .transportError e => some e
  | .response status _ => raiseForStatusError status

/-- Observable outcome of `fetch_user_data_to_json`: returned early because
the snapshot exists, returned after logging a fetch failure, created the
snapshot, or raised an uncaught exception from `response.json()` (body with
success status that is not JSON). -/
inductive FetchResult where
  | skipped
  | fetchError (cause : String)
  | created
  | crashed
deriving DecidableEq

/-- Result of a run of the Cache Loader: final filesystem, number of network
requests performed, outcome, and log lines as (level, message). -/
structure FetchOut where
  fs : FS
  requests : Nat
  result : FetchResult
  log : List (Nat × String)

/-- Embedding of `fetch_user_data_to_json` from src/main.py. If the snapshot
exists the API call is skipped; otherwise one request is made; transport
failures and bad statuses are logged and swallowed; on success
`json.dump(response.json(), f)` writes the re-serialized parsed body (file
opened for writing before `response.json()` runs, so a non-JSON body leaves
an empty file behind the uncaught exception). -/
def fetch_user_data_to_json (net : FetchOutcome) (fs : FS) : FetchOut :=
  if (fs.read USERS_JSON_FILE).isSome then
    ⟨fs, 0, .skipped, [(1, "users.json file already exists. Skipping API call.")]⟩
  else
    match net with
    | .transportError e =>
      ⟨fs, 1, .fetchError e, [(2, s!"Failed to fetch data from API: {e}")]⟩
    | .response status body =>
      match raiseForStatusError status with
      | some e => ⟨fs, 1, .fetchError e, [(2, s!"Failed to fetch data from API: {e}")]⟩
      | none =>
        match jsonParse body with
        | none => ⟨fs.write USERS_JSON_FILE (.text ""), 1, .crashed, []⟩
        | some v =>
          ⟨fs.write USERS_JSON_FILE (.text (dump v)), 1, .created,
            [(1, s!"users.json file created successfully: {USERS_JSON_FILE}.")]⟩

/-! ## Export Transformer -/

/-- Exceptions that can abort `write_user_data_to_excel` before the save:
missing snapshot (`FileNotFoundError`), snapshot that is not JSON
(`json.JSONDecodeError`), indexing a non-object or a non-string name
(`TypeError`), a missing dictionary key (`KeyError`), an empty token list
(`IndexError` from `[-1]`/`[0]`), and a cell value the spreadsheet library
rejects (`ValueError` for a nested list or object). -/
inductive ExpErr where
  | fileNotFoundError
  | jsonDecodeError
  | typeError
  | keyError (k : String)
  | indexError
  | valueError
deriving DecidableEq

/-- Grouping of exceptions the specification calls `ReadError`: missing or
unparsable snapshot. -/
def isReadError (e : ExpErr) : Prop := e = .fileNotFoundError ∨ e = .jsonDecodeError

/-- Whitespace for Python's `str.split()` (ASCII part). -/
def pyIsSpace (c : Char) : Bool :=
  c == ' ' || c == '\t' || c == '\n' || c == '\r' || c == '\x0b' || c == '\x0c'

def pySplitAux (acc : List Char) (toks : List String) : List Char → List String
  | [] => if acc.isEmpty then toks.reverse else (String.mk acc.reverse :: toks).reverse
  | c :: cs =>
    if pyIsSpace c then
      if acc.isEmpty then pySplitAux [] toks cs
      else pySplitAux [] (String.mk acc.reverse :: toks) cs
    else pySplitAux (c :: acc) toks cs

/-- Model of Python's `str.split()` with no arguments: split on runs of
whitespace, no empty tokens. -/
def pySplit (s : String) : List String := pySplitAux [] [] s.data

/-- Lookup in a parsed JSON object, later duplicate keys shadowing earlier
ones as in a Python dict built by `json.load`. -/
def jlookup (kvs : List (String × Json)) (k : String) : Option Json :=
  (kvs.reverse.find? (fun kv => kv.1 == k)).map (fun kv => kv.2)

/-- Model of Python's `value[k]` on a parsed JSON value: `KeyError` for a
missing key, `TypeError` when the value is not an object. -/
def getItem (u : Json) (k : String) : Except ExpErr Json :=
  match u with
  | .obj kvs =>
    match jlookup kvs k with
    | some v => .ok v
    | none => .error (.keyError k)
  | _ => .error .typeError

/-- Model of `user["name"].split()`: `TypeError` when the name field is not
a string. -/
def nameTokens (u : Json) : Except ExpErr (List String) := do
  let n ← getItem u "name"
  match n with
  | .str s => .ok (pySplit s)
  | _ => .error .typeError

/-- Model of the sort key lambda
`(user["name"].split()[-1], user["name"].split()[0])`. -/
def sortKeyOf (u : Json) : Except ExpErr (String × String) := do
  let ts ← nameTokens u
  match ts.getLast?, ts.head? with
  | some l, some f => .ok (l, f)
  | _, _ => .error .indexError

/-- Python's `<=` on (String, String) tuples, code-point lexicographic. -/
def keyLE (a b : String × String) : Bool :=
  pyStrLt a.1 b.1 || (a.1 == b.1 && (pyStrLt a.2 b.2 || a.2 == b.2))

/-- Comparison used to sort keyed records. -/
def keyedLE (a b : (String × String) × Json) : Bool := keyLE a.1 b.1

/-- Fail-fast effectful map, the model of a Python loop or of per-element
key extraction: the first exception aborts. -/
def mapE {α β : Type} (f : α → Except ExpErr β) : List α → Except ExpErr (List β)
  | [] => .ok []
  | x :: xs => do
    let y ← f x
    let ys ← mapE f xs
    .ok (y :: ys)

/-- Embedding of `sorted(users, key=...)`: the key is computed for every
record in input order (the first failing record aborts the sort), then the
records are sorted, stably and ascending, by key. -/
def sorted_users_of (users : List Json) : Except ExpErr (List Json) := do
  let keyed ← mapE (fun u => do
    let k ← sortKeyOf u
    Except.ok (k, u)) users
  Except.ok ((sortS keyedLE keyed).map (fun p => p.2))

/-- Cell values the spreadsheet library accepts: strings and numbers, not
nested containers. -/
def cellOk (v : Json) : Bool :=
  match v with
  | .str _ => true
  | .num _ => true
  | _ => false

def checkCell (v : Json) : Except ExpErr Json :=
  if cellOk v then .ok v else .error .valueError

/-- Embedding of one iteration of the row loop: the eight cell expressions
in source order, then `ws.append` validating each cell. -/
def userRow (u : Json) : Except ExpErr (List Json) := do
  let ts ← nameTokens u
  let lastTok ← match ts.getLast? with
    | some l => Except.ok l
    | none => Except.error ExpErr.indexError
  let firstTok ← match ts.head? with
    | some f => Except.ok f
    | none => Except.error ExpErr.indexError
  let email ← getItem u "email"
  let address ← getItem u "address"
  let street ← getItem address "street"
  let city ← getItem address "city"
  let zipcode ← getItem address "zipcode"
  let phone ← getItem u "phone"
  let website ← getItem u "website"
  mapE checkCell [Json.str lastTok, Json.str firstTok, email, street, city, zipcode,
    phone, website]

/-- Keys of a Python dict in first-occurrence order. -/
def firstOccur (seen : List String) : List String → List String
  | [] => []
  | k :: ks => if seen.contains k then firstOccur seen ks else k :: firstOccur (k :: seen) ks

/-- Model of Python iteration over the value `json.load` returned: a list
yields its elements, a dict its keys, a string its characters; a number is
not iterable. -/
def iterElems (v : Json) : Except ExpErr (List Json) :=
  match v with
  | .arr xs => .ok xs
  | .obj kvs => .ok ((firstOccur [] (kvs.map (fun kv => kv.1))).map Json.str)
  | .str s => .ok (s.data.map (fun c => Json.str (String.mk [c])))
  | .num _ => .error .typeError

/-- Header row appended first, with the literal column labels of the
source. -/
def headerRow : List Json :=
  [Json.str "last name", Json.str "first name", Json.str "email", Json.str "street",
    Json.str "city", Json.str "zipcode", Json.str "phone", Json.str "website"]

/-! ## Timestamp model -/

/-- Wall-clock reading used for the export filename (`datetime.now()`). -/
structure DateTime where
  year : Nat
  month : Nat
  day : Nat
  hour : Nat
  minute : Nat
  second : Nat
deriving DecidableEq

/-- Ranges `datetime.now()` guarantees for its fields (the year is four
digits throughout the program's era). -/
def DateTime.valid (t : DateTime) : Prop :=
  1000 ≤ t.year ∧ t.year ≤ 9999 ∧ 1 ≤ t.month ∧ t.month ≤ 12 ∧ 1 ≤ t.day ∧
    t.day ≤ 31 ∧ t.hour ≤ 23 ∧ t.minute ≤ 59 ∧ t.second ≤ 59

instance (t : DateTime) : Decidable t.valid := by
  unfold DateTime.valid
  infer_instance

/-- Strict chronological order on wall-clock readings. -/
def chronoBefore (t1 t2 : DateTime) : Prop :=
  t1.year < t2.year ∨ (t1.year = t2.year ∧ (t1.month < t2.month ∨ (t1.month = t2.month ∧
    (t1.day < t2.day ∨ (t1.day = t2.day ∧ (t1.hour < t2.hour ∨ (t1.hour = t2.hour ∧
    (t1.minute < t2.minute ∨ (t1.minute = t2.minute ∧ t1.second < t2.second)))))))))

instance (t1 t2 : DateTime) : Decidable (chronoBefore t1 t2) := by
  unfold chronoBefore
  infer_instance

/-- One zero-padded numeric field of the timestamp. -/
def fieldChars (w n : Nat) : List Char := (natDigits w n).map digitChar10

def stampChars (t : DateTime) : List Char :=
  fieldChars 4 t.year ++ fieldChars 2 t.month ++ fieldChars 2 t.day ++
    fieldChars 2 t.hour ++ fieldChars 2 t.minute ++ fieldChars 2 t.second

/-- Model of `now.strftime("%Y%m%d%H%M%S")`: each field zero-padded, no
separators. -/
def strftimeYmdHMS (t : DateTime) : String := String.mk (stampChars t)

/-- The export filename `f"employees_{timestamp}.xlsx"`. -/
def excelFileName (t : DateTime) : String :=
  "employees_" ++ strftimeYmdHMS t ++ ".xlsx"

/-! ## write_user_data_to_excel and the program's main flow -/

/-- Result of a run of the Export Transformer: final filesystem, saved path
or exception, and log lines. -/
structure ExportOut where
  fs : FS
  result : Except ExpErr String
  log : List (Nat × String)

/-- Embedding of `write_user_data_to_excel` from src/main.py: read and parse
the snapshot, build the in-memory workbook (header row, then one row per
record sorted by name key), and only then save it to disk; any exception
before the save leaves the filesystem untouched. -/
def write_user_data_to_excel (fs : FS) (save_folder : String) (now : DateTime) : ExportOut :=
  match fs.read USERS_JSON_FILE with
  | none => ⟨fs, .error .fileNotFoundError, []⟩
  | some (.sheet _) => ⟨fs, .error .jsonDecodeError, []⟩
  | some (.text content) =>
    match jsonParse content with
    | none => ⟨fs, .error .jsonDecodeError, []⟩
    | some v =>
      match (do
        let users ← iterElems v
        let susers ← sorted_users_of users
        let rows ← mapE userRow susers
        Except.ok rows : Except ExpErr (List (List Json))) with
      | .error e => ⟨fs, .error e, []⟩
      | .ok rows =>
        let save_path := save_folder ++ "/" ++ excelFileName now
        ⟨fs.write save_path (.sheet (headerRow :: rows)), .ok save_path,
          [(1, s!"Excel file saved successfully to: {save_path}")]⟩

/-- Embedding of the `__main__` block: fetch, then export to "files"; only
an uncaught exception in the fetch (crashed) prevents the export attempt. -/
def mainRun (net : FetchOutcome) (fs : FS) (now : DateTime) :
    FetchOut × Option ExportOut :=
  let f := fetch_user_data_to_json net fs
  match f.result with
  | .crashed => (f, none)
  | _ => (f, some (write_user_data_to_excel f.fs "files" now))

/-! ## Helper lemmas about the embedding -/

theorem FS.read_write (fs : FS) (p : String) (c : FileContent) :
    (fs.write p c).read p = some c := by
  simp [FS.read, FS.write, List.find?]

theorem fetch_exists_eq (net : FetchOutcome) (fs : FS) (c : FileContent)
    (h : fs.read USERS_JSON_FILE = some c) :
    fetch_user_data_to_json net fs =
      ⟨fs, 0, .skipped, [(1, "users.json file already exists. Skipping API call.")]⟩ := by
  simp [fetch_user_data_to_json, h]

theorem fetch_transport_eq (e : String) (fs : FS)
    (h : fs.read USERS_JSON_FILE = none) :
    fetch_user_data_to_json (.transportError e) fs =
      ⟨fs, 1, .fetchError e, [(2, s!"Failed to fetch data from API: {e}")]⟩ := by
  simp [fetch_user_data_to_json, h]

theorem fetch_badstatus_eq (status : Nat) (body : String) (fs : FS) (e : String)
    (h : fs.read USERS_JSON_FILE = none) (hs : raiseForStatusError status = some e) :
    fetch_user_data_to_json (.response status body) fs =
      ⟨fs, 1, .fetchError e, [(2, s!"Failed to fetch data from API: {e}")]⟩ := by
  simp [fetch_user_data_to_json, h, hs]

theorem fetch_created_eq (status : Nat) (body : String) (fs : FS) (v : Json)
    (h : fs.read USERS_JSON_FILE = none) (hs : raiseForStatusError status = none)
    (hp : jsonParse body = some v) :
    fetch_user_data_to_json (.response status body) fs =
      ⟨fs.write USERS_JSON_FILE (.text (dump v)), 1, .created,
        [(1, s!"users.json file created successfully: {USERS_JSON_FILE}.")]⟩ := by
  simp [fetch_user_data_to_json, h, hs, hp]

theorem fetch_crashed_eq (status : Nat) (body : String) (fs : FS)
    (h : fs.read USERS_JSON_FILE = none) (hs : raiseForStatusError status = none)
    (hp : jsonParse body = none) :
    fetch_user_data_to_json (.response status body) fs =
      ⟨fs.write USERS_JSON_FILE (.text ""), 1, .crashed, []⟩ := by
  simp [fetch_user_data_to_json, h, hs, hp]

theorem raiseForStatusError_eq_none (status : Nat) (h : status < 400) :
    raiseForStatusError status = none := by
  simp only [raiseForStatusError, ite_eq_right_iff]
  omega

theorem keyLE_iff (a b : String × String) :
    keyLE a b = true ↔ a.1 < b.1 ∨ (a.1 = b.1 ∧ (a.2 < b.2 ∨ a.2 = b.2)) := by
  simp [keyLE, pyStrLt_iff_lt, Bool.or_eq_true, Bool.and_eq_true, beq_iff_eq]

theorem keyLE_refl (a : String × String) : keyLE a a = true := by
  rw [keyLE_iff]
  exact Or.inr ⟨rfl, Or.inr rfl⟩

theorem keyLE_trans (a b c : String × String)
    (hab : keyLE a b = true) (hbc : keyLE b c = true) : keyLE a c = true := by
  rw [keyLE_iff] at hab hbc ⊢
  rcases hab with h1 | ⟨h1, h1'⟩
  · rcases hbc with h2 | ⟨h2, _⟩
    · exact Or.inl (lt_trans h1 h2)
    · exact Or.inl (h2 ▸ h1)
  · rcases hbc with h2 | ⟨h2, h2'⟩
    · exact Or.inl (h1 ▸ h2)
    · refine Or.inr ⟨h1.trans h2, ?_⟩
      rcases h1' with h3 | h3
      · rcases h2' with h4 | h4
        · exact Or.inl (lt_trans h3 h4)
        · exact Or.inl (h4 ▸ h3)
      · rcases h2' with h4 | h4
        · exact Or.inl (h3 ▸ h4)
        · exact Or.inr (h3.trans h4)

theorem keyLE_total (a b : String × String) : keyLE a b || keyLE b a := by
  rw [Bool.or_eq_true, keyLE_iff, keyLE_iff]
  rcases lt_trichotomy a.1 b.1 with h | h | h
  · exact Or.inl (Or.inl h)
  · rcases lt_trichotomy a.2 b.2 with h' | h' | h'
    · exact Or.inl (Or.inr ⟨h, Or.inl h'⟩)
    · exact Or.inl (Or.inr ⟨h, Or.inr h'⟩)
    · exact Or.inr (Or.inr ⟨h.symm, Or.inl h'⟩)
  · exact Or.inr (Or.inl h)

theorem keyedLE_trans (a b c : (String × String) × Json)
    (hab : keyedLE a b = true) (hbc : keyedLE b c = true) : keyedLE a c = true :=
  keyLE_trans a.1 b.1 c.1 hab hbc

theorem keyedLE_total (a b : (String × String) × Json) : keyedLE a b || keyedLE b a :=
  keyLE_total a.1 b.1

theorem except_bind_ok {ε α β : Type} {x : Except ε α} {f : α → Except ε β} {b : β} :
    (x >>= f) = Except.ok b ↔ ∃ a, x = Except.ok a ∧ f a = Except.ok b := by
  cases x with
  | error e => simp [Bind.bind, Except.bind]
  | ok a => simp [Bind.bind, Except.bind]

theorem except_bind_error {ε α β : Type} {x : Except ε α} {f : α → Except ε β} {e : ε} :
    (x >>= f) = Except.error e ↔
      x = Except.error e ∨ ∃ a, x = Except.ok a ∧ f a = Except.error e := by
  cases x with
  | error e' => simp [Bind.bind, Except.bind]
  | ok a => simp [Bind.bind, Except.bind]

theorem mapE_length {α β : Type} {f : α → Except ExpErr β} :
    ∀ {l : List α} {ys : List β}, mapE f l = .ok ys → ys.length = l.length := by
  intro l
  induction l with
  | nil =>
    intro ys h
    simp [mapE] at h
    simp [← h]
  | cons x xs ih =>
    intro ys h
    simp only [mapE] at h
    rw [except_bind_ok] at h
    obtain ⟨y, hy, h⟩ := h
    rw [except_bind_ok] at h
    obtain ⟨zs, hzs, h⟩ := h
    cases h
    simp [ih hzs]

theorem mapE_get {α β : Type} {f : α → Except ExpErr β} :
    ∀ {l : List α} {ys : List β}, mapE f l = .ok ys →
      ∀ {i : Nat} {x : α}, l[i]? = some x → ∃ y, ys[i]? = some y ∧ f x = .ok y := by
  intro l
  induction l with
  | nil => intro ys h i x hx; simp at hx
  | cons a as ih =>
    intro ys h i x hx
    simp only [mapE] at h
    rw [except_bind_ok] at h
    obtain ⟨y, hy, h⟩ := h
    rw [except_bind_ok] at h
    obtain ⟨zs, hzs, h⟩ := h
    cases h
    cases i with
    | zero =>
      simp at hx
      cases hx
      exact ⟨y, by simp, hy⟩
    | succ i =>
      simp only [List.getElem?_cons_succ] at hx ⊢
      exact ih hzs hx

theorem mapE_mem {α β : Type} {f : α → Except ExpErr β} :
    ∀ {l : List α} {ys : List β}, mapE f l = .ok ys →
      ∀ {x : α}, x ∈ l → ∃ y, y ∈ ys ∧ f x = .ok y := by
  intro l
  induction l with
  | nil => intro ys h x hx; cases hx
  | cons a as ih =>
    intro ys h x hx
    simp only [mapE] at h
    rw [except_bind_ok] at h
    obtain ⟨y, hy, h⟩ := h
    rw [except_bind_ok] at h
    obtain ⟨zs, hzs, h⟩ := h
    cases h
    rcases List.mem_cons.mp hx with rfl | hx
    · exact ⟨y, by simp, hy⟩
    · obtain ⟨y', hy', hfy'⟩ := ih hzs hx
      exact ⟨y', by simp [hy'], hfy'⟩

theorem mapE_error_of_mem {α β : Type} {f : α → Except ExpErr β} :
    ∀ {l : List α} {x : α} {e : ExpErr}, x ∈ l → f x = .error e →
      ∃ e', mapE f l = .error e' := by
  intro l
  induction l with
  | nil => intro x e hx; cases hx
  | cons a as ih =>
    intro x e hx hfx
    rcases List.mem_cons.mp hx with rfl | hx
    · refine ⟨e, ?_⟩
      simp [mapE, hfx, Bind.bind, Except.bind]
    · cases ha : f a with
      | error e' => exact ⟨e', by simp [mapE, ha, Bind.bind, Except.bind]⟩
      | ok y =>
        obtain ⟨e', he'⟩ := ih hx hfx
        refine ⟨e', ?_⟩
        simp [mapE, ha, he', Bind.bind, Except.bind]

/-! ## Concrete fixtures used by witnesses and counterexamples -/

/-- Sample wall-clock reading. -/
def t0 : DateTime := ⟨2026, 1, 2, 3, 4, 5⟩

def fsEmpty : FS := ⟨[]⟩

def fsWithSnapshot : FS := ⟨[(USERS_JSON_FILE, .text "[]")]⟩

/-- Snapshot with the three-record example of the specification. -/
def c2Content : String :=
  "[\x7b\"name\": \"Alice Zephyr\", \"email\": \"a@x.com\", \"address\": \x7b\"street\": \"s1\", \"city\": \"c1\", \"zipcode\": \"z1\"\x7d, \"phone\": \"p1\", \"website\": \"w1\"\x7d, \x7b\"name\": \"Bob Able\", \"email\": \"b@x.com\", \"address\": \x7b\"street\": \"s2\", \"city\": \"c2\", \"zipcode\": \"z2\"\x7d, \"phone\": \"p2\", \"website\": \"w2\"\x7d, \x7b\"name\": \"Carl Able\", \"email\": \"c@x.com\", \"address\": \x7b\"street\": \"s3\", \"city\": \"c3\", \"zipcode\": \"z3\"\x7d, \"phone\": \"p3\", \"website\": \"w3\"\x7d]"

def fsC2 : FS := ⟨[(USERS_JSON_FILE, .text c2Content)]⟩

/-- The record of the specification's round-trip field-mapping property. -/
def janeRecord : Json :=
  .obj [("name", .str "Jane Doe"), ("email", .str "j@x.com"),
    ("address", .obj [("street", .str "1 Main"), ("city", .str "Springfield"),
      ("zipcode", .str "00001")]),
    ("phone", .str "555"), ("website", .str "x.com")]

/-- Record missing every field except the name. -/
def janeNoEmail : Json := .obj [("name", .str "Jane Doe")]

def fsC10 : FS := ⟨[(USERS_JSON_FILE, .text "[\x7b\"name\": \"Jane Doe\"\x7d]")]⟩

/-- Snapshot whose content is valid JSON but not a sequence of records. -/
def fsC6 : FS := ⟨[(USERS_JSON_FILE, .text "\x7b\x7d")]⟩

/-! ## Claims -/

/-- C1: whenever the snapshot file already exists, `fetch_user_data_to_json`
succeeds immediately (skipped), performs no network request and leaves the
filesystem (hence the snapshot file) unchanged; consequently, starting from
a filesystem without the snapshot and a responsive endpoint (success
status), the first call performs the single network request and a second
call in succession performs none and changes nothing, for a total of
exactly one request. -/
theorem claim_C1 :
    (∀ (net : FetchOutcome) (fs : FS) (c : FileContent),
      fs.read USERS_JSON_FILE = some c →
        (fetch_user_data_to_json net fs).fs = fs ∧
        (fetch_user_data_to_json net fs).requests = 0 ∧
        (fetch_user_data_to_json net fs).result = .skipped) ∧
    (∀ (fs : FS) (status : Nat) (body : String) (net₂ : FetchOutcome),
      fs.read USERS_JSON_FILE = none → status < 400 →
        (fetch_user_data_to_json (.response status body) fs).requests +
          (fetch_user_data_to_json net₂
            (fetch_user_data_to_json (.response status body) fs).fs).requests = 1 ∧
        (fetch_user_data_to_json net₂
          (fetch_user_data_to_json (.response status body) fs).fs).fs =
          (fetch_user_data_to_json (.response status body) fs).fs) := by
  constructor
  · intro net fs c h
    rw [fetch_exists_eq net fs c h]
    exact ⟨rfl, rfl, rfl⟩
  · intro fs status body net₂ h hst
    have hs := raiseForStatusError_eq_none status hst
    cases hp : jsonParse body with
    | none =>
      rw [fetch_crashed_eq status body fs h hs hp]
      rw [fetch_exists_eq net₂ (fs.write USERS_JSON_FILE (.text "")) (.text "")
        (FS.read_write fs USERS_JSON_FILE (.text ""))]
      exact ⟨rfl, rfl⟩
    | some v =>
      rw [fetch_created_eq status body fs v h hs hp]
      rw [fetch_exists_eq net₂ (fs.write USERS_JSON_FILE (.text (dump v)))
        (.text (dump v)) (FS.read_write fs USERS_JSON_FILE (.text (dump v)))]
      exact ⟨rfl, rfl⟩

/-- Witness for C1 at concrete inputs: a filesystem that has the snapshot
(first part) and an empty one receiving a 200 response (second part). -/
theorem claim_C1_witness :
    fsWithSnapshot.read USERS_JSON_FILE = some (FileContent.text "[]") ∧
    fsEmpty.read USERS_JSON_FILE = none ∧ 200 < 400 ∧
    ((fetch_user_data_to_json (.transportError "down") fsWithSnapshot).fs = fsWithSnapshot ∧
      (fetch_user_data_to_json (.transportError "down") fsWithSnapshot).requests = 0 ∧
      (fetch_user_data_to_json (.transportError "down") fsWithSnapshot).result = .skipped) ∧
    ((fetch_user_data_to_json (.response 200 "[]") fsEmpty).requests +
      (fetch_user_data_to_json (.transportError "down")
        (fetch_user_data_to_json (.response 200 "[]") fsEmpty).fs).requests = 1 ∧
      (fetch_user_data_to_json (.transportError "down")
        (fetch_user_data_to_json (.response 200 "[]") fsEmpty).fs).fs =
        (fetch_user_data_to_json (.response 200 "[]") fsEmpty).fs) :=
  ⟨rfl, rfl, by decide,
    claim_C1.1 (.transportError "down") fsWithSnapshot (.text "[]") rfl,
    claim_C1.2 fsEmpty 200 "[]" (.transportError "down") rfl (by decide)⟩

/-- C4 counterexample: a successful response whose body is the JSON text
with a space inside the brackets is stored re-serialized without the space,
so the snapshot is not byte-identical to the response body. -/
theorem claim_C4_counterexample :
    (fetch_user_data_to_json (.response 200 "[ ]") fsEmpty).result = .created ∧
    (fetch_user_data_to_json (.response 200 "[ ]") fsEmpty).fs.read USERS_JSON_FILE =
      some (.text "[]") ∧
    "[]" ≠ "[ ]" := by
  rw [fetch_created_eq 200 "[ ]" fsEmpty (.arr []) rfl rfl rfl]
  have hd : dump (Json.arr []) = "[]" := by simp [dump, dumpItems]
  refine ⟨rfl, ?_, by decide⟩
  rw [hd]
  exact FS.read_write fsEmpty USERS_JSON_FILE (.text "[]")

/-- C4 (amended): on a successful fetch whose body parses as JSON,
`fetch_user_data_to_json` writes the `json.dumps` re-serialization of the
parsed body to the snapshot path — not the received bytes themselves; the
snapshot equals the response body exactly when the body is already in that
serialized form. -/
theorem claim_C4 :
    ∀ (fs : FS) (status : Nat) (body : String) (v : Json),
      fs.read USERS_JSON_FILE = none → status < 400 → jsonParse body = some v →
      (fetch_user_data_to_json (.response status body) fs).result = .created ∧
      (fetch_user_data_to_json (.response status body) fs).fs.read USERS_JSON_FILE =
        some (.text (dump v)) ∧
      (body = dump v →
        (fetch_user_data_to_json (.response status body) fs).fs.read USERS_JSON_FILE =
          some (.text body)) := by
  intro fs status body v h hst hp
  rw [fetch_created_eq status body fs v h (raiseForStatusError_eq_none status hst) hp]
  refine ⟨rfl, FS.read_write fs USERS_JSON_FILE (.text (dump v)), ?_⟩
  intro hb
  rw [hb]
  exact FS.read_write fs USERS_JSON_FILE (.text (dump v))

/-- Witness for C4 at a concrete canonical body. -/
theorem claim_C4_witness :
    fsEmpty.read USERS_JSON_FILE = none ∧ 200 < 400 ∧
    jsonParse "[]" = some (.arr []) ∧
    ((fetch_user_data_to_json (.response 200 "[]") fsEmpty).result = .created ∧
      (fetch_user_data_to_json (.response 200 "[]") fsEmpty).fs.read USERS_JSON_FILE =
        some (.text (dump (.arr []))) ∧
      ("[]" = dump (.arr []) →
        (fetch_user_data_to_json (.response 200 "[]") fsEmpty).fs.read USERS_JSON_FILE =
          some (.text "[]"))) :=
  ⟨rfl, by decide, rfl, claim_C4 fsEmpty 200 "[]" (.arr []) rfl (by decide) rfl⟩

/-- C5: on a missing cache, every transport failure or non-success status
leaves the filesystem unchanged (no snapshot written), reports the failure
as a FetchError with its cause, and logs it. -/
theorem claim_C5 :
    ∀ (net : FetchOutcome) (fs : FS) (e : String),
      fs.read USERS_JSON_FILE = none → failureOf net = some e →
      (fetch_user_data_to_json net fs).fs = fs ∧
      (fetch_user_data_to_json net fs).result = .fetchError e ∧
      (fetch_user_data_to_json net fs).log =
        [(2, s!"Failed to fetch data from API: {e}")] := by
  intro net fs e h hf
  cases net with
  | transportError msg =>
    simp only [failureOf, Option.some.injEq] at hf
    subst hf
    rw [fetch_transport_eq msg fs h]
    exact ⟨rfl, rfl, rfl⟩
  | response status body =>
    simp only [failureOf] at hf
    rw [fetch_badstatus_eq status body fs e h hf]
    exact ⟨rfl, rfl, rfl⟩

/-- Witness for C5: a connection failure against an empty filesystem. -/
theorem claim_C5_witness :
    fsEmpty.read USERS_JSON_FILE = none ∧
    failureOf (.transportError "Connection refused") = some "Connection refused" ∧
    ((fetch_user_data_to_json (.transportError "Connection refused") fsEmpty).fs = fsEmpty ∧
      (fetch_user_data_to_json (.transportError "Connection refused") fsEmpty).result =
        .fetchError "Connection refused" ∧
      (fetch_user_data_to_json (.transportError "Connection refused") fsEmpty).log =
        [(2, s!"Failed to fetch data from API: Connection refused")]) :=
  ⟨rfl, rfl, claim_C5 (.transportError "Connection refused") fsEmpty "Connection refused" rfl rfl⟩

/-- C8: in the program's invocation sequence, any fetch failure in the
Cache Loader — a transport failure or a non-success HTTP status, exactly
the failures of the guarded request block — is logged but does not stop the
run: the export is still attempted on the unchanged filesystem (and, the
cache being absent, fails with the missing-snapshot error). -/
theorem claim_C8 :
    ∀ (net : FetchOutcome) (fs : FS) (now : DateTime) (e : String),
      fs.read USERS_JSON_FILE = none → failureOf net = some e →
      (mainRun net fs now).1.result = .fetchError e ∧
      (2, s!"Failed to fetch data from API: {e}") ∈ (mainRun net fs now).1.log ∧
      (mainRun net fs now).2 = some (write_user_data_to_excel fs "files" now) ∧
      (write_user_data_to_excel fs "files" now).result = .error .fileNotFoundError := by
  intro net fs now e h hf
  have hfetch : fetch_user_data_to_json net fs =
      ⟨fs, 1, .fetchError e, [(2, s!"Failed to fetch data from API: {e}")]⟩ := by
    cases net with
    | transportError msg =>
      simp only [failureOf, Option.some.injEq] at hf
      subst hf
      exact fetch_transport_eq msg fs h
    | response status body =>
      simp only [failureOf] at hf
      exact fetch_badstatus_eq status body fs e h hf
  refine ⟨?_, ?_, ?_, ?_⟩
  · simp [mainRun, hfetch]
  · simp [mainRun, hfetch]
  · simp [mainRun, hfetch]
  · simp [write_user_data_to_excel, h]

/-- Witness for C8 at both failure kinds on an empty filesystem: a concrete
transport failure and a concrete 404 status. -/
theorem claim_C8_witness :
    fsEmpty.read USERS_JSON_FILE = none ∧
    failureOf (.transportError "refused") = some "refused" ∧
    failureOf (.response 404 "gone") = some "HTTP error 404" ∧
    ((mainRun (.transportError "refused") fsEmpty t0).1.result = .fetchError "refused" ∧
      (2, s!"Failed to fetch data from API: refused") ∈
        (mainRun (.transportError "refused") fsEmpty t0).1.log ∧
      (mainRun (.transportError "refused") fsEmpty t0).2 =
        some (write_user_data_to_excel fsEmpty "files" t0) ∧
      (write_user_data_to_excel fsEmpty "files" t0).result = .error .fileNotFoundError) ∧
    ((mainRun (.response 404 "gone") fsEmpty t0).1.result = .fetchError "HTTP error 404" ∧
      (2, s!"Failed to fetch data from API: HTTP error 404") ∈
        (mainRun (.response 404 "gone") fsEmpty t0).1.log ∧
      (mainRun (.response 404 "gone") fsEmpty t0).2 =
        some (write_user_data_to_excel fsEmpty "files" t0) ∧
      (write_user_data_to_excel fsEmpty "files" t0).result = .error .fileNotFoundError) :=
  ⟨rfl, rfl, rfl,
    claim_C8 (.transportError "refused") fsEmpty t0 "refused" rfl rfl,
    claim_C8 (.response 404 "gone") fsEmpty t0 "HTTP error 404" rfl rfl⟩

theorem sorted_users_of_ok {users susers : List Json}
    (h : sorted_users_of users = .ok susers) :
    ∃ keyed, mapE (fun u => do
        let k ← sortKeyOf u
        Except.ok (k, u)) users = .ok keyed ∧
      susers = (sortS keyedLE keyed).map (fun p => p.2) := by
  unfold sorted_users_of at h
  rw [except_bind_ok] at h
  obtain ⟨keyed, hk, h⟩ := h
  simp only [Except.ok.injEq] at h
  exact ⟨keyed, hk, h.symm⟩

/-- C10: whenever `write_user_data_to_excel` fails — missing or unreadable
snapshot, or any record on which row construction raises — the filesystem is
unchanged: no output file is created, because the workbook is saved only as
the final step; moreover a record in the snapshot on which row construction
raises does make the whole export fail. -/
theorem claim_C10 :
    (∀ (fs : FS) (folder : String) (now : DateTime) (e : ExpErr),
      (write_user_data_to_excel fs folder now).result = .error e →
      (write_user_data_to_excel fs folder now).fs = fs) ∧
    (∀ (fs : FS) (folder : String) (now : DateTime) (content : String) (v : Json)
        (users : List Json) (u : Json) (e : ExpErr),
      fs.read USERS_JSON_FILE = some (.text content) → jsonParse content = some v →
      iterElems v = .ok users → u ∈ users → userRow u = .error e →
      ∃ e', (write_user_data_to_excel fs folder now).result = .error e') := by
  constructor
  · intro fs folder now e h
    revert h
    unfold write_user_data_to_excel
    split
    · intro _; rfl
    · intro _; rfl
    · split
      · intro _; rfl
      · split
        · intro _; rfl
        · intro h
          simp at h
  · intro fs folder now content v users u e hread hparse hiter hmem hrow
    cases hsort : sorted_users_of users with
    | error e2 =>
      refine ⟨e2, ?_⟩
      simp [write_user_data_to_excel, hread, hparse, hiter, hsort, Bind.bind, Except.bind]
    | ok susers =>
      obtain ⟨keyed, hkeyed, hsusers⟩ := sorted_users_of_ok hsort
      have hu : u ∈ susers := by
        obtain ⟨y, hy, hfy⟩ := mapE_mem hkeyed hmem
        rw [except_bind_ok] at hfy
        obtain ⟨k, hk, hy'⟩ := hfy
        simp only [Except.ok.injEq] at hy'
        subst hy'
        rw [hsusers]
        have : (k, u) ∈ sortS keyedLE keyed := by
          rw [(sortS_perm keyedLE keyed).mem_iff]
          exact hy
        exact List.mem_map.mpr ⟨(k, u), this, rfl⟩
      obtain ⟨e', he'⟩ := mapE_error_of_mem hu hrow
      refine ⟨e', ?_⟩
      simp [write_user_data_to_excel, hread, hparse, hiter, hsort, he', Bind.bind, Except.bind]

set_option maxRecDepth 100000 in
/-- Witness for C10: a snapshot whose only record lacks the email field; the
export fails with that KeyError and creates no file. -/
theorem claim_C10_witness :
    (write_user_data_to_excel fsC10 "files" t0).result = .error (.keyError "email") ∧
    (write_user_data_to_excel fsC10 "files" t0).fs = fsC10 ∧
    (fsC10.read USERS_JSON_FILE = some (.text "[\x7b\"name\": \"Jane Doe\"\x7d]") ∧
      jsonParse "[\x7b\"name\": \"Jane Doe\"\x7d]" = some (.arr [janeNoEmail]) ∧
      iterElems (.arr [janeNoEmail]) = .ok [janeNoEmail] ∧
      userRow janeNoEmail = .error (.keyError "email") ∧
      ∃ e', (write_user_data_to_excel fsC10 "files" t0).result = .error e') :=
  ⟨rfl, claim_C10.1 fsC10 "files" t0 (.keyError "email") rfl,
    rfl, rfl, rfl, rfl,
    claim_C10.2 fsC10 "files" t0 "[\x7b\"name\": \"Jane Doe\"\x7d]" (.arr [janeNoEmail])
      [janeNoEmail] janeNoEmail (.keyError "email") rfl rfl rfl (by simp) rfl⟩

set_option maxRecDepth 100000 in
/-- C6 counterexample: the snapshot content is an empty JSON object — valid
JSON, but not a sequence of User records, so not "the expected structure" —
yet the export succeeds and writes a header-only spreadsheet instead of
failing with a ReadError and writing nothing. -/
theorem claim_C6_counterexample :
    fsC6.read USERS_JSON_FILE = some (.text "\x7b\x7d") ∧
    jsonParse "\x7b\x7d" = some (.obj []) ∧
    (write_user_data_to_excel fsC6 "files" t0).result =
      .ok ("files/employees_20260102030405.xlsx") ∧
    (write_user_data_to_excel fsC6 "files" t0).fs.read
      ("files/employees_20260102030405.xlsx") = some (.sheet [headerRow]) :=
  ⟨rfl, rfl, rfl, rfl⟩

/-- C6 (amended): `write_user_data_to_excel` on a snapshot that is missing,
or whose content is not valid JSON, fails with a ReadError and leaves the
filesystem unchanged (no output file); snapshots that are valid JSON but
not arrays of records are not covered by the ReadError guarantee (the empty
object, for one, exports a header-only table). -/
theorem claim_C6 :
    ∀ (fs : FS) (folder : String) (now : DateTime),
      (fs.read USERS_JSON_FILE = none ∨
        ∃ content, fs.read USERS_JSON_FILE = some (.text content) ∧
          jsonParse content = none) →
      ∃ e, (write_user_data_to_excel fs folder now).result = .error e ∧ isReadError e ∧
        (write_user_data_to_excel fs folder now).fs = fs := by
  intro fs folder now h
  rcases h with h | ⟨content, hread, hparse⟩
  · refine ⟨.fileNotFoundError, ?_, Or.inl rfl, ?_⟩ <;>
      simp [write_user_data_to_excel, h]
  · refine ⟨.jsonDecodeError, ?_, Or.inr rfl, ?_⟩ <;>
      simp [write_user_data_to_excel, hread, hparse]

/-- Witness for C6 (amended), covering both disjuncts: a missing snapshot
and a snapshot that is not JSON. -/
theorem claim_C6_witness :
    (fsEmpty.read USERS_JSON_FILE = none ∧
      ∃ e, (write_user_data_to_excel fsEmpty "files" t0).result = .error e ∧
        isReadError e ∧ (write_user_data_to_excel fsEmpty "files" t0).fs = fsEmpty) ∧
    ((FS.mk [(USERS_JSON_FILE, .text "not json")]).read USERS_JSON_FILE =
        some (.text "not json") ∧
      jsonParse "not json" = none ∧
      ∃ e, (write_user_data_to_excel (FS.mk [(USERS_JSON_FILE, .text "not json")])
          "files" t0).result = .error e ∧ isReadError e ∧
        (write_user_data_to_excel (FS.mk [(USERS_JSON_FILE, .text "not json")])
          "files" t0).fs = FS.mk [(USERS_JSON_FILE, .text "not json")]) :=
  ⟨⟨rfl, claim_C6 fsEmpty "files" t0 (Or.inl rfl)⟩,
    ⟨rfl, rfl, claim_C6 (FS.mk [(USERS_JSON_FILE, .text "not json")]) "files" t0
      (Or.inr ⟨"not json", rfl, rfl⟩)⟩⟩

/-! ## The User record of the data model -/

/-- User record of the specification's data model (§3): string fields
`name`, `email`, `phone`, `website` and a nested address with `street`,
`city`, `zipcode`. -/
def mkUser (name email street city zipcode phone website : String) : Json :=
  .obj [("name", .str name), ("email", .str email),
    ("address", .obj [("street", .str street), ("city", .str city),
      ("zipcode", .str zipcode)]),
    ("phone", .str phone), ("website", .str website)]

theorem nameTokens_mkUser (name email street city zipcode phone website : String) :
    nameTokens (mkUser name email street city zipcode phone website) =
      .ok (pySplit name) := rfl

theorem sortKeyOf_mkUser (name email street city zipcode phone website : String)
    {lastTok firstTok : String}
    (h1 : (pySplit name).getLast? = some lastTok)
    (h2 : (pySplit name).head? = some firstTok) :
    sortKeyOf (mkUser name email street city zipcode phone website) =
      .ok (lastTok, firstTok) := by
  simp only [sortKeyOf, nameTokens_mkUser, Bind.bind, Except.bind]
  rw [h1, h2]

theorem userRow_mkUser (name email street city zipcode phone website : String)
    {lastTok firstTok : String}
    (h1 : (pySplit name).getLast? = some lastTok)
    (h2 : (pySplit name).head? = some firstTok) :
    userRow (mkUser name email street city zipcode phone website) =
      .ok [.str lastTok, .str firstTok, .str email, .str street, .str city,
        .str zipcode, .str phone, .str website] := by
  simp only [userRow, nameTokens_mkUser, Bind.bind, Except.bind]
  rw [h1, h2]
  rfl

/-- C9: for a User record whose name has at least one whitespace-separated
token (so a last and a first token exist), the sort-key derivation and the
export-row construction are total — they never raise — and the row uses only
the last and first tokens of the name: any name with the same first and
last tokens, whatever its middle tokens, produces the same key and row. -/
theorem claim_C9 :
    ∀ (name email street city zipcode phone website lastTok firstTok : String),
      (pySplit name).getLast? = some lastTok →
      (pySplit name).head? = some firstTok →
      sortKeyOf (mkUser name email street city zipcode phone website) =
        .ok (lastTok, firstTok) ∧
      userRow (mkUser name email street city zipcode phone website) =
        .ok [.str lastTok, .str firstTok, .str email, .str street, .str city,
          .str zipcode, .str phone, .str website] ∧
      (∀ name₂ : String, (pySplit name₂).getLast? = some lastTok →
        (pySplit name₂).head? = some firstTok →
        sortKeyOf (mkUser name₂ email street city zipcode phone website) =
          sortKeyOf (mkUser name email street city zipcode phone website) ∧
        userRow (mkUser name₂ email street city zipcode phone website) =
          userRow (mkUser name email street city zipcode phone website)) := by
  intro name email street city zipcode phone website lastTok firstTok h1 h2
  refine ⟨sortKeyOf_mkUser name email street city zipcode phone website h1 h2,
    userRow_mkUser name email street city zipcode phone website h1 h2, ?_⟩
  intro name₂ h1' h2'
  constructor
  · rw [sortKeyOf_mkUser name₂ email street city zipcode phone website h1' h2',
      sortKeyOf_mkUser name email street city zipcode phone website h1 h2]
  · rw [userRow_mkUser name₂ email street city zipcode phone website h1' h2',
      userRow_mkUser name email street city zipcode phone website h1 h2]

/-- Witness for C9: the multi-token name "Anna B. Carter" — the middle
initial is dropped and the row agrees with the one for "Anna Carter". -/
theorem claim_C9_witness :
    (pySplit "Anna B. Carter").getLast? = some "Carter" ∧
    (pySplit "Anna B. Carter").head? = some "Anna" ∧
    (sortKeyOf (mkUser "Anna B. Carter" "e" "st" "ci" "zi" "ph" "we") =
        .ok ("Carter", "Anna") ∧
      userRow (mkUser "Anna B. Carter" "e" "st" "ci" "zi" "ph" "we") =
        .ok [.str "Carter", .str "Anna", .str "e", .str "st", .str "ci",
          .str "zi", .str "ph", .str "we"] ∧
      (∀ name₂ : String, (pySplit name₂).getLast? = some "Carter" →
        (pySplit name₂).head? = some "Anna" →
        sortKeyOf (mkUser name₂ "e" "st" "ci" "zi" "ph" "we") =
          sortKeyOf (mkUser "Anna B. Carter" "e" "st" "ci" "zi" "ph" "we") ∧
        userRow (mkUser name₂ "e" "st" "ci" "zi" "ph" "we") =
          userRow (mkUser "Anna B. Carter" "e" "st" "ci" "zi" "ph" "we"))) :=
  ⟨rfl, rfl,
    claim_C9 "Anna B. Carter" "e" "st" "ci" "zi" "ph" "we" "Carter" "Anna" rfl rfl⟩

theorem checkCell_ok {v w : Json} (h : checkCell v = .ok w) : w = v := by
  unfold checkCell at h
  split at h
  · cases h; rfl
  · cases h

theorem mapE_checkCell_ok : ∀ {l r : List Json}, mapE checkCell l = .ok r → r = l := by
  intro l
  induction l with
  | nil => intro r h; simp only [mapE, Except.ok.injEq] at h; simp [← h]
  | cons x xs ih =>
    intro r h
    simp only [mapE] at h
    rw [except_bind_ok] at h
    obtain ⟨y, hy, h⟩ := h
    rw [except_bind_ok] at h
    obtain ⟨ys, hys, h⟩ := h
    simp only [Except.ok.injEq] at h
    rw [← h, checkCell_ok hy, ih hys]

theorem keyed_proj : ∀ {users : List Json} {keyed : List ((String × String) × Json)},
    mapE (fun u => do
      let k ← sortKeyOf u
      Except.ok (k, u)) users = .ok keyed → keyed.map (fun p => p.2) = users := by
  intro users
  induction users with
  | nil =>
    intro keyed h
    simp only [mapE, Except.ok.injEq] at h
    simp [← h]
  | cons u us ih =>
    intro keyed h
    simp only [mapE] at h
    rw [except_bind_ok] at h
    obtain ⟨y, hy, h⟩ := h
    rw [except_bind_ok] at h
    obtain ⟨ys, hys, h⟩ := h
    simp only [Except.ok.injEq] at h
    rw [except_bind_ok] at hy
    obtain ⟨k, hk, hy⟩ := hy
    simp only [Except.ok.injEq] at hy
    subst hy
    rw [← h]
    simp [ih hys]

theorem sorted_users_of_perm {users susers : List Json}
    (h : sorted_users_of users = .ok susers) : susers ~ users := by
  obtain ⟨keyed, hkeyed, hsusers⟩ := sorted_users_of_ok h
  rw [hsusers, ← keyed_proj hkeyed]
  exact (sortS_perm keyedLE keyed).map (fun p => p.2)

theorem sorted_users_of_length {users susers : List Json}
    (h : sorted_users_of users = .ok susers) : susers.length = users.length :=
  (sorted_users_of_perm h).length_eq

/-- C3: the exported table is exactly one header row with the literal
labels, followed by one row per sorted record; every successful row is the
8-tuple (last name token, first name token, email, street, city, zipcode,
phone, website) of its record; and the specification's Jane Doe record maps
to the stated row. -/
theorem claim_C3 :
    headerRow = [Json.str "last name", Json.str "first name", Json.str "email",
      Json.str "street", Json.str "city", Json.str "zipcode", Json.str "phone",
      Json.str "website"] ∧
    (∀ (fs : FS) (folder : String) (now : DateTime) (path : String),
      (write_user_data_to_excel fs folder now).result = .ok path →
      ∃ content v users susers rows,
        fs.read USERS_JSON_FILE = some (.text content) ∧
        jsonParse content = some v ∧
        iterElems v = .ok users ∧
        sorted_users_of users = .ok susers ∧
        mapE userRow susers = .ok rows ∧
        rows.length = users.length ∧
        (write_user_data_to_excel fs folder now).fs.read path =
          some (.sheet (headerRow :: rows)) ∧
        (∀ (i : Nat) (u : Json), susers[i]? = some u →
          ∃ r, rows[i]? = some r ∧ userRow u = .ok r)) ∧
    (∀ (u : Json) (r : List Json), userRow u = .ok r →
      ∃ ts lastTok firstTok email address street city zipcode phone website,
        nameTokens u = .ok ts ∧ ts.getLast? = some lastTok ∧ ts.head? = some firstTok ∧
        getItem u "email" = .ok email ∧ getItem u "address" = .ok address ∧
        getItem address "street" = .ok street ∧ getItem address "city" = .ok city ∧
        getItem address "zipcode" = .ok zipcode ∧ getItem u "phone" = .ok phone ∧
        getItem u "website" = .ok website ∧
        r = [Json.str lastTok, Json.str firstTok, email, street, city, zipcode,
          phone, website]) ∧
    userRow janeRecord = .ok [.str "Doe", .str "Jane", .str "j@x.com", .str "1 Main",
      .str "Springfield", .str "00001", .str "555", .str "x.com"] := by
  refine ⟨rfl, ?_, ?_, rfl⟩
  · intro fs folder now path h
    unfold write_user_data_to_excel at h
    split at h
    · simp at h
    · simp at h
    · rename_i content heq
      split at h
      · simp at h
      · rename_i v hparse
        split at h
        · simp at h
        · rename_i rows hdo
          simp only [Except.ok.injEq] at h
          have hdo' := hdo
          rw [except_bind_ok] at hdo'
          obtain ⟨users, hI, hdo'⟩ := hdo'
          rw [except_bind_ok] at hdo'
          obtain ⟨susers, hS, hdo'⟩ := hdo'
          rw [except_bind_ok] at hdo'
          obtain ⟨rows', hR, hdo'⟩ := hdo'
          simp only [Except.ok.injEq] at hdo'
          subst hdo'
          refine ⟨content, v, users, susers, rows', heq, hparse, hI, hS, hR,
            (mapE_length hR).trans (sorted_users_of_length hS), ?_, ?_⟩
          · subst h
            simp only [write_user_data_to_excel, heq, hparse, hdo]
            exact FS.read_write fs (folder ++ "/" ++ excelFileName now)
              (.sheet (headerRow :: rows'))
          · intro i u hu
            exact mapE_get hR hu
  · intro u r h
    unfold userRow at h
    rw [except_bind_ok] at h
    obtain ⟨ts, hts, h⟩ := h
    cases hl' : ts.getLast? with
    | none =>
      rw [hl'] at h
      simp [Bind.bind, Except.bind] at h
    | some lastTok =>
    rw [hl'] at h
    rw [except_bind_ok] at h
    obtain ⟨y, hy, h⟩ := h
    simp only [Except.ok.injEq] at hy
    subst hy
    cases hf' : ts.head? with
    | none =>
      rw [hf'] at h
      simp [Bind.bind, Except.bind] at h
    | some firstTok =>
    rw [hf'] at h
    rw [except_bind_ok] at h
    obtain ⟨y2, hy2, h⟩ := h
    simp only [Except.ok.injEq] at hy2
    subst hy2
    rw [except_bind_ok] at h
    obtain ⟨email, hemail, h⟩ := h
    rw [except_bind_ok] at h
    obtain ⟨address, haddress, h⟩ := h
    rw [except_bind_ok] at h
    obtain ⟨street, hstreet, h⟩ := h
    rw [except_bind_ok] at h
    obtain ⟨city, hcity, h⟩ := h
    rw [except_bind_ok] at h
    obtain ⟨zipcode, hzipcode, h⟩ := h
    rw [except_bind_ok] at h
    obtain ⟨phone, hphone, h⟩ := h
    rw [except_bind_ok] at h
    obtain ⟨website, hwebsite, h⟩ := h
    exact ⟨ts, lastTok, firstTok, email, address, street, city, zipcode, phone,
      website, hts, hl', hf', hemail, haddress, hstreet, hcity, hzipcode, hphone,
      hwebsite, mapE_checkCell_ok h⟩

set_option maxRecDepth 100000 in
/-- Witness for C3: the three-record snapshot exports successfully (shape
part) and the Jane Doe record satisfies the row characterization. -/
theorem claim_C3_witness :
    (write_user_data_to_excel fsC2 "files" t0).result =
      Except.ok "files/employees_20260102030405.xlsx" ∧
    (∃ content v users susers rows,
      fsC2.read USERS_JSON_FILE = some (.text content) ∧
      jsonParse content = some v ∧
      iterElems v = .ok users ∧
      sorted_users_of users = .ok susers ∧
      mapE userRow susers = .ok rows ∧
      rows.length = users.length ∧
      (write_user_data_to_excel fsC2 "files" t0).fs.read
        "files/employees_20260102030405.xlsx" = some (.sheet (headerRow :: rows)) ∧
      (∀ (i : Nat) (u : Json), susers[i]? = some u →
        ∃ r, rows[i]? = some r ∧ userRow u = .ok r)) ∧
    userRow janeRecord = .ok [.str "Doe", .str "Jane", .str "j@x.com", .str "1 Main",
      .str "Springfield", .str "00001", .str "555", .str "x.com"] ∧
    (∃ ts lastTok firstTok email address street city zipcode phone website,
      nameTokens janeRecord = .ok ts ∧ ts.getLast? = some lastTok ∧
      ts.head? = some firstTok ∧
      getItem janeRecord "email" = .ok email ∧
      getItem janeRecord "address" = .ok address ∧
      getItem address "street" = .ok street ∧ getItem address "city" = .ok city ∧
      getItem address "zipcode" = .ok zipcode ∧ getItem janeRecord "phone" = .ok phone ∧
      getItem janeRecord "website" = .ok website ∧
      ([Json.str "Doe", Json.str "Jane", Json.str "j@x.com", Json.str "1 Main",
        Json.str "Springfield", Json.str "00001", Json.str "555", Json.str "x.com"]
        : List Json) =
        [Json.str lastTok, Json.str firstTok, email, street, city, zipcode,
          phone, website]) :=
  ⟨rfl,
    claim_C3.2.1 fsC2 "files" t0 "files/employees_20260102030405.xlsx" rfl,
    rfl,
    claim_C3.2.2.1 janeRecord
      [Json.str "Doe", Json.str "Jane", Json.str "j@x.com", Json.str "1 Main",
        Json.str "Springfield", Json.str "00001", Json.str "555", Json.str "x.com"] rfl⟩

set_option maxRecDepth 100000 in
/-- C2: the export sorts the full record sequence ascending by the key
(last name token, first name token) under code-point lexicographic string
ordering (the comparison agrees with the standard string order), the sorted
sequence is a permutation of the input, the sort is stable (records whose
keys compare `le` in input order, in particular records with identical
keys, keep their relative order), and on the three-record example the
exported rows are ordered Able,Bob; Able,Carl; Zephyr,Alice. -/
theorem claim_C2 :
    (∀ s t : String, pyStrLt s t = true ↔ s < t) ∧
    (∀ keyed : List ((String × String) × Json), sortS keyedLE keyed ~ keyed) ∧
    (∀ keyed : List ((String × String) × Json),
      (sortS keyedLE keyed).Pairwise (fun a b => keyLE a.1 b.1 = true)) ∧
    (∀ (keyed : List ((String × String) × Json)) (a b : (String × String) × Json),
      keyLE a.1 b.1 = true → [a, b] <+ keyed → [a, b] <+ sortS keyedLE keyed) ∧
    (∀ users susers : List Json, sorted_users_of users = .ok susers → susers ~ users) ∧
    (write_user_data_to_excel fsC2 "files" t0).fs.read
        "files/employees_20260102030405.xlsx" =
      some (.sheet [headerRow,
        [.str "Able", .str "Bob", .str "b@x.com", .str "s2", .str "c2", .str "z2",
          .str "p2", .str "w2"],
        [.str "Able", .str "Carl", .str "c@x.com", .str "s3", .str "c3", .str "z3",
          .str "p3", .str "w3"],
        [.str "Zephyr", .str "Alice", .str "a@x.com", .str "s1", .str "c1", .str "z1",
          .str "p1", .str "w1"]]) := by
  refine ⟨pyStrLt_iff_lt, sortS_perm keyedLE, ?_, ?_, ?_, rfl⟩
  · intro keyed
    exact pairwise_sortS keyedLE keyedLE_trans keyedLE_total keyed
  · intro keyed a b hab h
    exact pair_sublist_sortS keyedLE hab h
  · intro users susers h
    exact sorted_users_of_perm h

/-- Witness for C2: the comparison agreement at concrete strings, stability
at a concrete two-record tie, and the permutation at the example list. -/
theorem claim_C2_witness :
    (pyStrLt "Able" "Zephyr" = true ↔ ("Able" : String) < "Zephyr") ∧
    (keyLE ("Able", "Bob") ("Able", "Carl") = true ∧
      [(("Able", "Bob"), janeRecord), (("Able", "Carl"), janeNoEmail)] <+
        [(("Able", "Bob"), janeRecord), (("Able", "Carl"), janeNoEmail)] ∧
      [(("Able", "Bob"), janeRecord), (("Able", "Carl"), janeNoEmail)] <+
        sortS keyedLE [(("Able", "Bob"), janeRecord), (("Able", "Carl"), janeNoEmail)]) ∧
    (sorted_users_of [janeRecord] = .ok [janeRecord] ∧ [janeRecord] ~ [janeRecord]) :=
  ⟨claim_C2.1 "Able" "Zephyr",
    ⟨by decide, List.Sublist.refl _,
      claim_C2.2.2.2.1 [(("Able", "Bob"), janeRecord), (("Able", "Carl"), janeNoEmail)]
        (("Able", "Bob"), janeRecord) (("Able", "Carl"), janeNoEmail)
        (by decide) (List.Sublist.refl _)⟩,
    ⟨rfl, claim_C2.2.2.2.2.1 [janeRecord] [janeRecord] rfl⟩⟩

theorem fieldChars_length (w n : Nat) : (fieldChars w n).length = w := by
  simp [fieldChars, natDigits_length]

theorem stampChars_length (t : DateTime) : (stampChars t).length = 14 := by
  simp [stampChars, fieldChars_length]

theorem fieldChars_lex (w : Nat) {a b : Nat} (h : a < b) (hb : b < 10 ^ w)
    (c d : List Char) :
    List.Lex (· < ·) (fieldChars w a ++ c) (fieldChars w b ++ d) :=
  lex_append_of_lex
    (lex_map_digitChar10 (natDigits_lt w h hb) (natDigits_all_lt w a)
      (natDigits_all_lt w b))
    (by simp [natDigits_length]) c d

theorem stampChars_lex (t1 t2 : DateTime) (h1 : t1.valid) (h2 : t2.valid)
    (hc : chronoBefore t1 t2) :
    List.Lex (· < ·) (stampChars t1) (stampChars t2) := by
  obtain ⟨ha1, ha2, ha3, ha4, ha5, ha6, ha7, ha8, ha9⟩ := h1
  obtain ⟨hb1, hb2, hb3, hb4, hb5, hb6, hb7, hb8, hb9⟩ := h2
  unfold stampChars
  simp only [List.append_assoc]
  rcases hc with h | ⟨hy, h⟩
  · exact fieldChars_lex 4 h (by omega) _ _
  · rw [hy]
    apply List.Lex.append_left
    rcases h with h | ⟨hmo, h⟩
    · exact fieldChars_lex 2 h (by omega) _ _
    · rw [hmo]
      apply List.Lex.append_left
      rcases h with h | ⟨hd, h⟩
      · exact fieldChars_lex 2 h (by omega) _ _
      · rw [hd]
        apply List.Lex.append_left
        rcases h with h | ⟨hh, h⟩
        · exact fieldChars_lex 2 h (by omega) _ _
        · rw [hh]
          apply List.Lex.append_left
          rcases h with h | ⟨hmi, h⟩
          · exact fieldChars_lex 2 h (by omega) _ _
          · rw [hmi]
            apply List.Lex.append_left
            exact lex_map_digitChar10 (natDigits_lt 2 h (by omega))
              (natDigits_all_lt 2 t1.second) (natDigits_all_lt 2 t2.second)

/-- C7: for any valid wall-clock reading the export filename is exactly
`employees_` followed by 14 decimal digits and the `.xlsx` extension, and
for any strictly earlier reading (in particular any two export moments more
than one second apart) the earlier filename is lexicographically smaller. -/
theorem claim_C7 :
    (∀ t : DateTime, t.valid →
      excelFileName t = "employees_" ++ strftimeYmdHMS t ++ ".xlsx" ∧
      (strftimeYmdHMS t).length = 14 ∧
      (∀ c ∈ (strftimeYmdHMS t).data, c.isDigit = true)) ∧
    (∀ t1 t2 : DateTime, t1.valid → t2.valid → chronoBefore t1 t2 →
      excelFileName t1 < excelFileName t2) := by
  constructor
  · intro t ht
    refine ⟨rfl, ?_, ?_⟩
    · show (stampChars t).length = 14
      exact stampChars_length t
    · intro c hc
      have hc' : c ∈ stampChars t := hc
      simp only [stampChars, fieldChars, List.mem_append, List.mem_map] at hc'
      rcases hc' with ((((⟨d, hd, rfl⟩ | ⟨d, hd, rfl⟩) | ⟨d, hd, rfl⟩) | ⟨d, hd, rfl⟩) |
          ⟨d, hd, rfl⟩) | ⟨d, hd, rfl⟩ <;>
        exact digitChar10_digit_fin ⟨d, natDigits_all_lt _ _ d hd⟩
  · intro t1 t2 h1 h2 hc
    rw [String.lt_iff_toList_lt]
    show List.Lex (· < ·)
      ("employees_".data ++ (stampChars t1 ++ ".xlsx".data))
      ("employees_".data ++ (stampChars t2 ++ ".xlsx".data))
    exact List.Lex.append_left _
      (lex_append_of_lex (stampChars_lex t1 t2 h1 h2 hc)
        (by rw [stampChars_length, stampChars_length]) _ _) _

/-- Wall-clock reading one second after `t0`. -/
def tAfter : DateTime := ⟨2026, 1, 2, 3, 4, 6⟩

/-- Witness for C7 at two concrete moments one second apart. -/
theorem claim_C7_witness :
    t0.valid ∧ tAfter.valid ∧ chronoBefore t0 tAfter ∧
    (excelFileName t0 = "employees_" ++ strftimeYmdHMS t0 ++ ".xlsx" ∧
      (strftimeYmdHMS t0).length = 14 ∧
      (∀ c ∈ (strftimeYmdHMS t0).data, c.isDigit = true)) ∧
    excelFileName t0 < excelFileName tAfter :=
  ⟨by decide, by decide, by decide, claim_C7.1 t0 (by decide),
    claim_C7.2 t0 tAfter (by decide) (by decide) (by decide)⟩
